import Mathlib

/-!
Verification of the SpendGuardian backend core (sheet parser, column type
inference, and chart recommendation engine) against its natural-language
specification.

The JavaScript source is shallowly embedded: cell values become the `Cell`
inductive (JS `null`, `undefined`, strings, numbers, `Date` instances),
the anchored regular expressions of `inferColumnType` / `isLikelyDate` /
the row classifier become decidable character-list parsers with the same
backtracking-free semantics, and the `parseFile` pipeline stages
(header scan, row filter, active-column selection, materialization) become
pure list functions.  The floating-point threshold test
`count / total >= 0.6` is embedded as the exact rational comparison
`10 * count >= 6 * total`; the two agree for every column length below
2^52, far beyond any spreadsheet this code can receive.
-/

namespace SpendGuardian

/-- A raw cell value as seen by the JS code after
`sheet_to_json(..., {header:1, defval:null, raw:false})`:
`null`, `undefined` (out-of-range index), a string, a number, or a
`Date` instance (carrying its JS string form). -/
inductive Cell where
  | null : Cell
  | undef : Cell
  | str : String → Cell
  | num : Int → Cell
  | date : String → Cell
deriving DecidableEq, Repr, Inhabited

/-- JS `String(cell)` — `String(null) = "null"`, `String(undefined) = "undefined"`. -/
def Cell.toJsString : Cell → String
  | .null => "null"
  | .undef => "undefined"
  | .str s => s
  | .num n => toString n
  | .date s => s

/-- JS `cell instanceof Date`. -/
def Cell.isDateInstance : Cell → Bool
  | .date _ => true
  | _ => false

/-- JS `String.prototype.trim` on the character-list view (ASCII whitespace). -/
def jsTrim (s : String) : String :=
  String.mk (((s.data.dropWhile Char.isWhitespace).reverse.dropWhile Char.isWhitespace).reverse)

/-- JS `String.prototype.toLowerCase` (ASCII range, which is all the code compares). -/
def jsToLower (s : String) : String :=
  String.mk (s.data.map Char.toLower)

/-- Consume a maximal run of characters satisfying `p`; return the run length
and the remaining characters.  Models a greedy `X+` / `X*` regex segment. -/
def takeCls (p : Char → Bool) : List Char → Nat × List Char
  | [] => (0, [])
  | c :: cs =>
    if p c then
      let r := takeCls p cs
      (r.1 + 1, r.2)
    else (0, c :: cs)

/-- Strip one leading `'-'` if present: the regex prefix `-?` (the character
classes that follow it in the source never contain `'-'`, so this is exact). -/
def stripNeg : List Char → List Char
  | '-' :: r => r
  | l => l

/-- `/^-?\d+(\.\d+)?%$/` — the percentage test of `inferColumnType`. -/
def isPercentStr (s : String) : Bool :=
  let cs := stripNeg s.data
  let r := takeCls Char.isDigit cs
  decide (1 ≤ r.1) &&
    (match r.2 with
     | ['%'] => true
     | '.' :: r2 =>
       let q := takeCls Char.isDigit r2
       decide (1 ≤ q.1) && q.2 == ['%']
     | _ => false)

/-- The currency glyph class `[$£€¥₹₨]`. -/
def isCurrencySym (c : Char) : Bool :=
  c == '$' || c == '£' || c == '€' || c == '¥' || c == '₹' || c == '₨'

/-- The class `[\d,]`. -/
def isDigitComma (c : Char) : Bool :=
  c.isDigit || c == ','

/-- `[\d,]+(\.\d+)?$` — the shared numeric tail of the currency and number
regexes. -/
def numTail (cs : List Char) : Bool :=
  let r := takeCls isDigitComma cs
  decide (1 ≤ r.1) &&
    (match r.2 with
     | [] => true
     | '.' :: r2 =>
       let q := takeCls Char.isDigit r2
       decide (1 ≤ q.1) && q.2.isEmpty
     | _ => false)

/-- First alternative `^-?[$£€¥₹₨]\s?[\d,]+(\.\d+)?$` of the currency regex. -/
def currencyAlt1 (cs0 : List Char) : Bool :=
  match stripNeg cs0 with
  | c :: r =>
    isCurrencySym c &&
      (match r with
       | w :: r2 => if w.isWhitespace then numTail r2 else numTail (w :: r2)
       | [] => false)
  | [] => false

/-- `\s?[$£€¥₹₨]$` — tail of the second currency alternative. -/
def endSym : List Char → Bool
  | [c] => isCurrencySym c
  | [w, c] => w.isWhitespace && isCurrencySym c
  | _ => false

/-- Second alternative `^[\d,]+(\.\d+)?\s?[$£€¥₹₨]$` of the currency regex. -/
def currencyAlt2 (cs : List Char) : Bool :=
  let r := takeCls isDigitComma cs
  decide (1 ≤ r.1) &&
    (match r.2 with
     | '.' :: r2 =>
       let q := takeCls Char.isDigit r2
       decide (1 ≤ q.1) && endSym q.2
     | rest => endSym rest)

/-- `/^-?[$£€¥₹₨]\s?[\d,]+(\.\d+)?$|^[\d,]+(\.\d+)?\s?[$£€¥₹₨]$/` —
the currency test of `inferColumnType`. -/
def isCurrencyStr (s : String) : Bool :=
  currencyAlt1 s.data || currencyAlt2 s.data

/-- `/^-?[\d,]+(\.\d+)?$/` — the plain-number test of `inferColumnType`. -/
def isNumberStr (s : String) : Bool :=
  numTail (stripNeg s.data)

/-- The class `[\d$£€,.]` of the row classifier's looks-like-data regex. -/
def isLooksDataChar (c : Char) : Bool :=
  c.isDigit || c == '$' || c == '£' || c == '€' || c == ',' || c == '.'

/-- `/^-?[\d$£€,.]+/.test(firstVal)` — an unanchored-end test: the string must
start with `-?` followed by at least one class character. -/
def looksLikeDataStr (s : String) : Bool :=
  match s.data with
  | '-' :: c :: _ => isLooksDataChar c
  | c :: _ => isLooksDataChar c
  | [] => false

/-- `[\/\-]` — the date separator class. -/
def isSepChar (c : Char) : Bool :=
  c == '/' || c == '-'

/-- `^\d{1,2}[\/\-]\d{1,2}[\/\-]\d{2,4}$` — first pattern of `isLikelyDate`. -/
def datePat1 (cs : List Char) : Bool :=
  let a := takeCls Char.isDigit cs
  decide (1 ≤ a.1 ∧ a.1 ≤ 2) &&
    (match a.2 with
     | s1 :: r2 =>
       isSepChar s1 &&
         (let b := takeCls Char.isDigit r2
          decide (1 ≤ b.1 ∧ b.1 ≤ 2) &&
            (match b.2 with
             | s2 :: r4 =>
               isSepChar s2 &&
                 (let c := takeCls Char.isDigit r4
                  decide (2 ≤ c.1 ∧ c.1 ≤ 4) && c.2.isEmpty)
             | [] => false))
     | [] => false)

/-- `^\d{4}[\/\-]\d{1,2}[\/\-]\d{1,2}$` — second pattern of `isLikelyDate`. -/
def datePat2 (cs : List Char) : Bool :=
  let a := takeCls Char.isDigit cs
  (a.1 == 4) &&
    (match a.2 with
     | s1 :: r2 =>
       isSepChar s1 &&
         (let b := takeCls Char.isDigit r2
          decide (1 ≤ b.1 ∧ b.1 ≤ 2) &&
            (match b.2 with
             | s2 :: r4 =>
               isSepChar s2 &&
                 (let c := takeCls Char.isDigit r4
                  decide (1 ≤ c.1 ∧ c.1 ≤ 2) && c.2.isEmpty)
             | [] => false))
     | [] => false)

/-- The twelve three-letter month abbreviations, lowered. -/
def monthAbbrevs : List (List Char) :=
  [['j','a','n'], ['f','e','b'], ['m','a','r'], ['a','p','r'], ['m','a','y'], ['j','u','n'],
   ['j','u','l'], ['a','u','g'], ['s','e','p'], ['o','c','t'], ['n','o','v'], ['d','e','c']]

/-- Match the case-insensitive alternation `(Jan|Feb|...|Dec)` at the head of
the input; every alternative is exactly three characters, so matching is
deterministic. -/
def stripMonth : List Char → Option (List Char)
  | a :: b :: c :: r =>
    if monthAbbrevs.contains [a.toLower, b.toLower, c.toLower] then some r else none
  | _ => none

/-- `^(Jan|...|Dec)\s+\d{1,2},?\s+\d{4}$` (case-insensitive) — third pattern
of `isLikelyDate`. -/
def datePat3 (cs : List Char) : Bool :=
  match stripMonth cs with
  | some r =>
    let w := takeCls Char.isWhitespace r
    decide (1 ≤ w.1) &&
      (let d := takeCls Char.isDigit w.2
       decide (1 ≤ d.1 ∧ d.1 ≤ 2) &&
         (let r4 := match d.2 with | ',' :: rr => rr | other => other
          let w2 := takeCls Char.isWhitespace r4
          decide (1 ≤ w2.1) &&
            (let y := takeCls Char.isDigit w2.2
             (y.1 == 4) && y.2.isEmpty)))
  | none => false

/-- `^\d{1,2}\s+(Jan|...|Dec)\s+\d{4}$` (case-insensitive) — fourth pattern
of `isLikelyDate`. -/
def datePat4 (cs : List Char) : Bool :=
  let d := takeCls Char.isDigit cs
  decide (1 ≤ d.1 ∧ d.1 ≤ 2) &&
    (let w := takeCls Char.isWhitespace d.2
     decide (1 ≤ w.1) &&
       (match stripMonth w.2 with
        | some r3 =>
          let w2 := takeCls Char.isWhitespace r3
          decide (1 ≤ w2.1) &&
            (let y := takeCls Char.isDigit w2.2
             (y.1 == 4) && y.2.isEmpty)
        | none => false))

/-- `isLikelyDate(str)`: `patterns.some(p => p.test(str.trim()))`. -/
def isLikelyDate (s : String) : Bool :=
  let t := (jsTrim s).data
  datePat1 t || datePat2 t || datePat3 t || datePat4 t

/-- `cell !== null && String(cell).trim() !== ''` — the non-empty-cell test
used throughout `parseFile`. -/
def isNonEmptyCell (c : Cell) : Bool :=
  c != Cell.null && jsTrim c.toJsString != ""

/-- `row.filter(cell => cell !== null && String(cell).trim() !== '').length`. -/
def nonEmptyCount (row : List Cell) : Nat :=
  (row.filter isNonEmptyCell).length

/-- JS array indexing `row[i]`: the element when in range, `undefined` past
the end. -/
def jsAt (row : List Cell) (i : Nat) : Cell :=
  row.getD i Cell.undef

/-- One iteration of the header-scan loop: update `(headerRowIndex,
maxNonEmpty)` when row `i` has strictly more non-empty cells. -/
def headerScanStep (rawRows : List (List Cell)) (st : Nat × Nat) (i : Nat) : Nat × Nat :=
  let nonEmpty := nonEmptyCount (rawRows.getD i [])
  if nonEmpty > st.2 then (i, nonEmpty) else st

/-- The header scan of `parseFile`: fold the update over
`0 ≤ i < min(10, rawRows.length)` starting from `(0, 0)`. -/
def headerRowIndex (rawRows : List (List Cell)) : Nat :=
  ((List.range (min 10 rawRows.length)).foldl (headerScanStep rawRows) (0, 0)).1

/-- `rawRows[headerRowIndex]` — the raw header row. -/
def headerRowOf (rawRows : List (List Cell)) : List Cell :=
  rawRows.getD (headerRowIndex rawRows) []

/-- Header names: trim each header cell, replace blank/null cells by
`Column_<1-based index>`. -/
def buildHeaders (rawHeaders : List Cell) : List String :=
  rawHeaders.mapIdx (fun i h =>
    let clean := if h != Cell.null then jsTrim h.toJsString else ""
    if clean != "" then clean else "Column_" ++ toString (i + 1))

/-- `String(row[0] ?? '').trim()` — `??` turns both `null` and `undefined`
(empty row) into `''`. -/
def rowFirstVal (row : List Cell) : String :=
  match row.headD Cell.undef with
  | Cell.null => ""
  | Cell.undef => ""
  | c => jsTrim c.toJsString

/-- `/^-?[\d$£€,.]+/.test(firstVal) || row[0] instanceof Date`. -/
def rowLooksLikeData (row : List Cell) : Bool :=
  looksLikeDataStr (rowFirstVal row) || (row.headD Cell.undef).isDateInstance

/-- The row classifier of `parseFile`: drop fully blank rows; drop rows with
exactly one non-empty cell whose position-0 value fails the looks-like-data
test; keep everything else. -/
def keepRow (row : List Cell) : Bool :=
  let n := nonEmptyCount row
  if n = 0 then false
  else if n = 1 then rowLooksLikeData row
  else true

/-- `rawRows.slice(headerRowIndex + 1).filter(...)` — the retained data rows. -/
def dataRowsOf (rawRows : List (List Cell)) : List (List Cell) :=
  (rawRows.drop (headerRowIndex rawRows + 1)).filter keepRow

/-- Active raw column indices: header cell non-blank, or some retained row
has a non-empty value at that index (JS indexing semantics, so a retained
row shorter than the header contributes `undefined`, which JS counts as
non-empty). -/
def activeColIndices (rawRows : List (List Cell)) : List Nat :=
  let rawHeaders := headerRowOf rawRows
  let hs := buildHeaders rawHeaders
  let dataRows := dataRowsOf rawRows
  (List.range hs.length).filter (fun i =>
    let hasHeaderName := isNonEmptyCell (jsAt rawHeaders i)
    let hasData := dataRows.any (fun row => isNonEmptyCell (jsAt row i))
    hasHeaderName || hasData)

/-- `finalHeaders = activeColIndices.map(i => headers[i])` — the column names
of the ParsedTable. -/
def parsedColumnNames (rawRows : List (List Cell)) : List String :=
  (activeColIndices rawRows).map (fun i => (buildHeaders (headerRowOf rawRows)).getD i "")

/-- The non-empty values of raw column `i` over the retained rows, in row
order — the input to type inference and the source of `sample`. -/
def columnValues (rawRows : List (List Cell)) (i : Nat) : List Cell :=
  ((dataRowsOf rawRows).map (fun row => jsAt row i)).filter isNonEmptyCell

/-- Per-value classification tag, as suggested by spec §9: the first
matching predicate of the `inferColumnType` loop wins. -/
inductive ValueClass where
  | percentage
  | currency
  | number
  | date
  | unclassified
deriving DecidableEq, Repr

/-- The body of the `for (const raw of values)` loop of `inferColumnType`,
expressed as a tagged classification (percentage → currency → number → date,
first match wins; `continue` makes the predicates mutually exclusive). -/
def classifyValue (raw : Cell) : ValueClass :=
  let v := jsTrim raw.toJsString
  if isPercentStr v then ValueClass.percentage
  else if isCurrencyStr v then ValueClass.currency
  else if isNumberStr v then ValueClass.number
  else if raw.isDateInstance || isLikelyDate v then ValueClass.date
  else ValueClass.unclassified

/-- The counter update of the `inferColumnType` loop, on the state
`(dateCount, numberCount, currencyCount, percentageCount)`. -/
def inferStep (st : Nat × Nat × Nat × Nat) (raw : Cell) : Nat × Nat × Nat × Nat :=
  let v := jsTrim raw.toJsString
  if isPercentStr v then (st.1, st.2.1, st.2.2.1, st.2.2.2 + 1)
  else if isCurrencyStr v then (st.1, st.2.1, st.2.2.1 + 1, st.2.2.2)
  else if isNumberStr v then (st.1, st.2.1 + 1, st.2.2.1, st.2.2.2)
  else if raw.isDateInstance || isLikelyDate v then (st.1 + 1, st.2.1, st.2.2.1, st.2.2.2)
  else st

/-- `new Set(values.map(v => String(v).trim().toLowerCase())).size` —
the number of distinct case-insensitive trimmed values. -/
def distinctCiCount (values : List Cell) : Nat :=
  ((values.map (fun v => jsToLower (jsTrim v.toJsString))).dedup).length

/-- `inferColumnType(values)` — classify each value, then compare the
counters against the 0.6 threshold in the source's order; `count / total
>= 0.6` is embedded exactly as `10 * count ≥ 6 * total`. -/
def inferColumnType (values : List Cell) : String :=
  if values.length = 0 then "Text"
  else
    let st := values.foldl inferStep (0, 0, 0, 0)
    let total := values.length
    if 10 * st.2.2.2 ≥ 6 * total then "Percentage"
    else if 10 * st.2.2.1 ≥ 6 * total then "Currency"
    else if 10 * st.1 ≥ 6 * total then "Date"
    else if 10 * (st.2.1 + st.2.2.1) ≥ 6 * total then "Number"
    else if distinctCiCount values ≤ 20 then "Category"
    else "Text"

/-- `countP`-based counter for one classification tag — the spec-side view
of the loop counters. -/
def cntClass (k : ValueClass) (values : List Cell) : Nat :=
  values.countP (fun r => classifyValue r == k)

/-- The threshold decision of spec §4.4 stated over the tagged per-value
classification of spec §9: fractions compared against 0.6 in the fixed
order percentage, currency, date, number+currency, with the
Category/Text distinct-count fallback. -/
def specInferColumnType (values : List Cell) : String :=
  if values.length = 0 then "Text"
  else
    let total := values.length
    if 10 * cntClass ValueClass.percentage values ≥ 6 * total then "Percentage"
    else if 10 * cntClass ValueClass.currency values ≥ 6 * total then "Currency"
    else if 10 * cntClass ValueClass.date values ≥ 6 * total then "Date"
    else if 10 * (cntClass ValueClass.number values + cntClass ValueClass.currency values) ≥ 6 * total
      then "Number"
    else if distinctCiCount values ≤ 20 then "Category"
    else "Text"

/-- Column metadata of the ParsedTable: name, inferred type, first five
non-empty values. -/
structure Column where
  name : String
  type : String
  sample : List Cell
deriving DecidableEq, Repr

/-- The `columns` output of `parseFile`. -/
def columnsOf (rawRows : List (List Cell)) : List Column :=
  (activeColIndices rawRows).map (fun i =>
    { name := (buildHeaders (headerRowOf rawRows)).getD i ""
      type := inferColumnType (columnValues rawRows i)
      sample := (columnValues rawRows i).take 5 })

/-- The `rows` output of `parseFile`: one association per active column,
blank cells normalized to `null` (modelled as an association list in active
column order). -/
def rowsOf (rawRows : List (List Cell)) : List (List (String × Cell)) :=
  (dataRowsOf rawRows).map (fun row =>
    (activeColIndices rawRows).map (fun i =>
      ((buildHeaders (headerRowOf rawRows)).getD i "",
       if isNonEmptyCell (jsAt row i) then jsAt row i else Cell.null)))

/-- `selectedSheet && sheetNames.includes(selectedSheet) ? selectedSheet :
sheetNames[0]` — JS truthiness makes both `null` and the empty string fall
back to the first sheet. -/
def targetSheet (sheetNames : List String) (selectedSheet : Option String) : String :=
  match selectedSheet with
  | some s => if s != "" && sheetNames.contains s then s else sheetNames.headD ""
  | none => sheetNames.headD ""

/-- Sheet selection including the zero-sheet error of `parseFile`. -/
def selectSheet (sheetNames : List String) (selectedSheet : Option String) :
    Except String String :=
  if sheetNames.isEmpty then Except.error "The file contains no sheets"
  else Except.ok (targetSheet sheetNames selectedSheet)

/-- Column name/type pair consumed by `suggestCharts`. -/
structure ColumnMeta where
  name : String
  type : String
deriving DecidableEq, Repr

/-- A chart or stat-card recommendation. -/
structure ChartSuggestion where
  id : String
  chartType : String
  title : String
  xColumn : Option String
  yColumn : String
  description : String
deriving DecidableEq, Repr

/-- Replace each maximal whitespace run by a single underscore:
`.replace(/\s+/g, '_')`. -/
def collapseWsAux : Bool → List Char → List Char
  | _, [] => []
  | prevWs, c :: cs =>
    if c.isWhitespace then
      if prevWs then collapseWsAux true cs
      else '_' :: collapseWsAux true cs
    else c :: collapseWsAux false cs

/-- `s.replace(/\s+/g, '_')` on a whole id string. -/
def collapseWs (s : String) : String :=
  String.mk (collapseWsAux false s.data)

/-- The `line` suggestion pushed for a (date, numeric) pair. -/
def mkLine (d n : ColumnMeta) : ChartSuggestion :=
  { id := collapseWs ("line_" ++ d.name ++ "_" ++ n.name)
    chartType := "line"
    title := n.name ++ " Over Time"
    xColumn := some d.name
    yColumn := n.name
    description := "Trend of " ++ n.name ++ " by " ++ d.name }

/-- The `area` suggestion pushed for a (date, numeric) pair. -/
def mkArea (d n : ColumnMeta) : ChartSuggestion :=
  { id := collapseWs ("area_" ++ d.name ++ "_" ++ n.name)
    chartType := "area"
    title := n.name ++ " Area Trend"
    xColumn := some d.name
    yColumn := n.name
    description := "Area chart of " ++ n.name ++ " over " ++ d.name }

/-- The `bar` suggestion pushed for a (category, numeric) pair. -/
def mkBar (c n : ColumnMeta) : ChartSuggestion :=
  { id := collapseWs ("bar_" ++ c.name ++ "_" ++ n.name)
    chartType := "bar"
    title := n.name ++ " by " ++ c.name
    xColumn := some c.name
    yColumn := n.name
    description := "Compare " ++ n.name ++ " across " ++ c.name ++ " categories" }

/-- The `pie` suggestion pushed for a (category, numeric) pair. -/
def mkPie (c n : ColumnMeta) : ChartSuggestion :=
  { id := collapseWs ("pie_" ++ c.name ++ "_" ++ n.name)
    chartType := "pie"
    title := n.name ++ " Distribution by " ++ c.name
    xColumn := some c.name
    yColumn := n.name
    description := "Proportion of " ++ n.name ++ " per " ++ c.name }

/-- The `stats` card mapped over each numeric column (no `xColumn`). -/
def mkStats (col : ColumnMeta) : ChartSuggestion :=
  { id := collapseWs ("stats_" ++ col.name)
    chartType := "stats"
    title := col.name ++ " Summary"
    xColumn := none
    yColumn := col.name
    description := "Total, Average, Min, Max for " ++ col.name }

/-- `columns.filter(c => c.type === 'Date')`. -/
def dateCols (columns : List ColumnMeta) : List ColumnMeta :=
  columns.filter (fun c => c.type == "Date")

/-- `columns.filter(c => ['Number','Currency','Percentage'].includes(c.type))`. -/
def numericCols (columns : List ColumnMeta) : List ColumnMeta :=
  columns.filter (fun c => (["Number", "Currency", "Percentage"] : List String).contains c.type)

/-- `columns.filter(c => c.type === 'Category')`. -/
def categoryCols (columns : List ColumnMeta) : List ColumnMeta :=
  columns.filter (fun c => c.type == "Category")

/-- The `{charts, statCards}` return value of `suggestCharts`. -/
structure SuggestResult where
  charts : List ChartSuggestion
  statCards : List ChartSuggestion
deriving DecidableEq, Repr

/-- `suggestCharts(columns)`: the three push loops accumulate into one
`suggestions` array — line/area interleaved over (date, numeric) pairs, then
all bars over (category, numeric) pairs, then all pies — and the stat cards
are mapped over the numeric columns. -/
def suggestCharts (columns : List ColumnMeta) : SuggestResult :=
  let s1 := (dateCols columns).foldl
    (fun acc d => (numericCols columns).foldl
      (fun acc2 n => acc2 ++ [mkLine d n, mkArea d n]) acc) []
  let s2 := (categoryCols columns).foldl
    (fun acc c => (numericCols columns).foldl
      (fun acc2 n => acc2 ++ [mkBar c n]) acc) s1
  let s3 := (categoryCols columns).foldl
    (fun acc c => (numericCols columns).foldl
      (fun acc2 n => acc2 ++ [mkPie c n]) acc) s2
  { charts := s3, statCards := (numericCols columns).map mkStats }

/-- The closed type enum of the external interface. -/
def knownColumnTypes : List String :=
  ["Date", "Number", "Currency", "Percentage", "Category", "Text"]

/-- Whether a column's type string lies in the closed enum. -/
def isKnownType (c : ColumnMeta) : Bool :=
  knownColumnTypes.contains c.type

/-! ## Helper lemmas -/

theorem foldl_append_eq_flatMap {α β : Type} (l : List α) (f : α → List β) (init : List β) :
    l.foldl (fun acc x => acc ++ f x) init = init ++ l.flatMap f := by
  induction l generalizing init with
  | nil => simp
  | cons a t ih => simp [ih, List.append_assoc]

theorem foldl2_append_eq_flatMap {α γ β : Type} (outer : List α) (inner : List γ)
    (f : α → γ → List β) (init : List β) :
    outer.foldl (fun acc d => inner.foldl (fun acc2 n => acc2 ++ f d n) acc) init
      = init ++ outer.flatMap (fun d => inner.flatMap (f d)) := by
  induction outer generalizing init with
  | nil => simp
  | cons a t ih => simp [ih, foldl_append_eq_flatMap, List.append_assoc]

/-- Structure of the `suggestCharts` output: the accumulated push loops
flatten to three concatenated blocks. -/
theorem suggestCharts_eq_blocks (columns : List ColumnMeta) :
    (suggestCharts columns).charts
      = (dateCols columns).flatMap
          (fun d => (numericCols columns).flatMap (fun n => [mkLine d n, mkArea d n]))
        ++ (categoryCols columns).flatMap
          (fun c => (numericCols columns).flatMap (fun n => [mkBar c n]))
        ++ (categoryCols columns).flatMap
          (fun c => (numericCols columns).flatMap (fun n => [mkPie c n]))
      ∧ (suggestCharts columns).statCards = (numericCols columns).map mkStats := by
  constructor
  · show ((categoryCols columns).foldl _ ((categoryCols columns).foldl _
      ((dateCols columns).foldl _ [])) : List ChartSuggestion) = _
    rw [foldl2_append_eq_flatMap, foldl2_append_eq_flatMap, foldl2_append_eq_flatMap]
    simp [List.append_assoc]
  · rfl

theorem length_flatMap_const {α β : Type} (l : List α) (f : α → List β) (k : Nat)
    (h : ∀ a, (f a).length = k) : (l.flatMap f).length = l.length * k := by
  induction l with
  | nil => simp
  | cons a t ih => simp [List.flatMap_cons, h, ih, Nat.succ_mul, Nat.add_comm]

theorem filter_filter_absorb {α : Type} (p q : α → Bool) (l : List α)
    (h : ∀ a, p a = true → q a = true) :
    (l.filter q).filter p = l.filter p := by
  induction l with
  | nil => rfl
  | cons a t ih =>
    simp only [List.filter_cons]
    cases hq : q a <;> cases hp : p a <;> simp [hq, hp, ih]
    exact absurd (h a hp) (by simp [hq])

theorem dateCols_filter_known (columns : List ColumnMeta) :
    dateCols (columns.filter isKnownType) = dateCols columns := by
  unfold dateCols
  exact filter_filter_absorb _ _ _ (by
    intro a ha
    have : a.type = "Date" := by simpa using ha
    simp [isKnownType, knownColumnTypes, this])

theorem numericCols_filter_known (columns : List ColumnMeta) :
    numericCols (columns.filter isKnownType) = numericCols columns := by
  unfold numericCols
  exact filter_filter_absorb _ _ _ (by
    intro a ha
    have : a.type = "Number" ∨ a.type = "Currency" ∨ a.type = "Percentage" := by
      simpa using List.mem_of_elem_eq_true ha
    rcases this with h | h | h <;> simp [isKnownType, knownColumnTypes, h])

theorem categoryCols_filter_known (columns : List ColumnMeta) :
    categoryCols (columns.filter isKnownType) = categoryCols columns := by
  unfold categoryCols
  exact filter_filter_absorb _ _ _ (by
    intro a ha
    have : a.type = "Category" := by simpa using ha
    simp [isKnownType, knownColumnTypes, this])

/-! ## Claim theorems -/

/-- **C2 counterexample.** For columns `[Category C, Number N1, Number N2]`
the code emits all bar suggestions before any pie suggestion
(`bar, bar, pie, pie`), not one bar then one pie per (category, numeric)
pair (`bar, pie, bar, pie`) as the claim states. -/
theorem c2_counterexample_bars_before_pies :
    ((suggestCharts [⟨"C", "Category"⟩, ⟨"N1", "Number"⟩, ⟨"N2", "Number"⟩]).charts.map
        (fun s => s.chartType))
      = ["bar", "bar", "pie", "pie"]
    ∧ (["bar", "bar", "pie", "pie"] : List String) ≠ ["bar", "pie", "bar", "pie"] := by
  constructor
  · rfl
  · decide

/-- **C2 (amended).** `suggestCharts` output order is: one `line` then one
`area` per (date, numeric) pair (outer loop date, inner numeric); then all
`bar` suggestions (outer loop category, inner numeric); then all `pie`
suggestions in the same pair order; then one stats card per numeric
column. -/
theorem c2_suggestion_order (columns : List ColumnMeta) :
    (suggestCharts columns).charts
      = (dateCols columns).flatMap
          (fun d => (numericCols columns).flatMap (fun n => [mkLine d n, mkArea d n]))
        ++ (categoryCols columns).flatMap
          (fun c => (numericCols columns).flatMap (fun n => [mkBar c n]))
        ++ (categoryCols columns).flatMap
          (fun c => (numericCols columns).flatMap (fun n => [mkPie c n]))
      ∧ (suggestCharts columns).statCards = (numericCols columns).map mkStats :=
  suggestCharts_eq_blocks columns

/-- **C5.** The total number of suggestions (charts plus stat cards) is
exactly `2·d·n + 2·c·n + n` for `d` date, `n` numeric and `c` category
columns. -/
theorem c5_suggestion_count (columns : List ColumnMeta) :
    (suggestCharts columns).charts.length + (suggestCharts columns).statCards.length
      = 2 * (dateCols columns).length * (numericCols columns).length
        + 2 * (categoryCols columns).length * (numericCols columns).length
        + (numericCols columns).length := by
  obtain ⟨h1, h2⟩ := suggestCharts_eq_blocks columns
  rw [h1, h2]
  simp only [List.length_append, List.length_map]
  rw [length_flatMap_const (dateCols columns)
      (fun d => (numericCols columns).flatMap (fun n => [mkLine d n, mkArea d n]))
      ((numericCols columns).length * 2)
      (fun d => length_flatMap_const (numericCols columns)
        (fun n => [mkLine d n, mkArea d n]) 2 (fun n => rfl)),
    length_flatMap_const (categoryCols columns)
      (fun c => (numericCols columns).flatMap (fun n => [mkBar c n]))
      ((numericCols columns).length * 1)
      (fun c => length_flatMap_const (numericCols columns)
        (fun n => [mkBar c n]) 1 (fun n => rfl)),
    length_flatMap_const (categoryCols columns)
      (fun c => (numericCols columns).flatMap (fun n => [mkPie c n]))
      ((numericCols columns).length * 1)
      (fun c => length_flatMap_const (numericCols columns)
        (fun n => [mkPie c n]) 1 (fun n => rfl))]
  ring

/-- **C6.** `suggestCharts` is total by construction (a pure function on any
column list); columns whose type string is outside the closed enum are
excluded from every partition, so deleting them does not change the output,
and the empty column list yields the empty result. -/
theorem c6_unknown_types_excluded (columns : List ColumnMeta) :
    suggestCharts (columns.filter isKnownType) = suggestCharts columns
    ∧ suggestCharts [] = { charts := [], statCards := [] } := by
  constructor
  · unfold suggestCharts
    rw [dateCols_filter_known, numericCols_filter_known, categoryCols_filter_known]
  · rfl

/-- The counter update of the inference loop is the tagged classification of
spec §9: each value bumps exactly the counter of its `classifyValue` tag. -/
theorem inferStep_eq_classify (st : Nat × Nat × Nat × Nat) (raw : Cell) :
    inferStep st raw =
      match classifyValue raw with
      | ValueClass.percentage => (st.1, st.2.1, st.2.2.1, st.2.2.2 + 1)
      | ValueClass.currency => (st.1, st.2.1, st.2.2.1 + 1, st.2.2.2)
      | ValueClass.number => (st.1, st.2.1 + 1, st.2.2.1, st.2.2.2)
      | ValueClass.date => (st.1 + 1, st.2.1, st.2.2.1, st.2.2.2)
      | ValueClass.unclassified => st := by
  unfold inferStep classifyValue
  dsimp only
  split_ifs <;> rfl

/-- The folded loop counters equal the `countP` counts of the per-value
classification. -/
theorem foldl_inferStep_eq_counts (values : List Cell) (st : Nat × Nat × Nat × Nat) :
    values.foldl inferStep st
      = (st.1 + cntClass ValueClass.date values,
         st.2.1 + cntClass ValueClass.number values,
         st.2.2.1 + cntClass ValueClass.currency values,
         st.2.2.2 + cntClass ValueClass.percentage values) := by
  induction values generalizing st with
  | nil => simp [cntClass]
  | cons a t ih =>
    rw [List.foldl_cons, ih, inferStep_eq_classify]
    cases h : classifyValue a <;>
      simp [cntClass, List.countP_cons, h] <;> omega

/-- **C3.** For every non-empty list of non-empty column values,
`inferColumnType` decides by thresholds evaluated in the fixed order
percentage, currency, date, number+currency, each against 0.6 with the
first satisfied winning, falling back to Category for at most 20 distinct
case-insensitive trimmed values and to Text otherwise — i.e. it agrees with
the spec-shaped decision procedure over the tagged per-value
classification. -/
theorem c3_inferColumnType_thresholds (values : List Cell)
    (h1 : values ≠ [])
    (h2 : ∀ v ∈ values, isNonEmptyCell v = true) :
    inferColumnType values = specInferColumnType values := by
  have hlen : ¬ values.length = 0 := by simpa [List.length_eq_zero] using h1
  unfold inferColumnType specInferColumnType
  rw [if_neg hlen, if_neg hlen, foldl_inferStep_eq_counts]
  simp

/-- **C7.** `inferColumnType` is invariant under permutation of its input
values: every branch depends only on permutation-invariant data (length,
classification counts, distinct-count). -/
theorem c7_inferColumnType_perm_invariant (values values' : List Cell)
    (h : values.Perm values') :
    inferColumnType values = inferColumnType values' := by
  have hlen : values.length = values'.length := h.length_eq
  have hd : cntClass ValueClass.date values = cntClass ValueClass.date values' :=
    h.countP_eq _
  have hn : cntClass ValueClass.number values = cntClass ValueClass.number values' :=
    h.countP_eq _
  have hc : cntClass ValueClass.currency values = cntClass ValueClass.currency values' :=
    h.countP_eq _
  have hp : cntClass ValueClass.percentage values = cntClass ValueClass.percentage values' :=
    h.countP_eq _
  have hdist : distinctCiCount values = distinctCiCount values' :=
    ((h.map _).dedup).length_eq
  unfold inferColumnType
  rw [foldl_inferStep_eq_counts, foldl_inferStep_eq_counts, hlen, hd, hn, hc, hp, hdist]

/-- Witness for C7 at a concrete permutation. -/
theorem c7_witness :
    ([Cell.str "a", Cell.str "42"] : List Cell).Perm [Cell.str "42", Cell.str "a"]
    ∧ inferColumnType [Cell.str "a", Cell.str "42"]
        = inferColumnType [Cell.str "42", Cell.str "a"] :=
  ⟨by decide, c7_inferColumnType_perm_invariant _ _ (by decide)⟩

/-- Witness for C3 at a concrete column. -/
theorem c3_witness :
    ([Cell.str "5%", Cell.str "12.5%"] : List Cell) ≠ []
    ∧ (∀ v ∈ ([Cell.str "5%", Cell.str "12.5%"] : List Cell), isNonEmptyCell v = true)
    ∧ inferColumnType [Cell.str "5%", Cell.str "12.5%"]
        = specInferColumnType [Cell.str "5%", Cell.str "12.5%"] :=
  ⟨by decide, by decide, c3_inferColumnType_thresholds _ (by decide) (by decide)⟩

/-- **C1 (code bug).** The row `[null, "TOTAL", null, null]` has exactly one
non-empty cell, at position 1, yet the classifier drops it: the code checks
only that exactly one cell is non-empty and that position 0 fails the
looks-like-data test, never that the filled cell is at position 0 — contrary
to the claim and to the code's own comments. -/
theorem c1_sole_offset_cell_row_dropped :
    nonEmptyCount [Cell.null, Cell.str "TOTAL", Cell.null, Cell.null] = 1
    ∧ isNonEmptyCell (jsAt [Cell.null, Cell.str "TOTAL", Cell.null, Cell.null] 1) = true
    ∧ keepRow [Cell.null, Cell.str "TOTAL", Cell.null, Cell.null] = false := by
  refine ⟨rfl, rfl, rfl⟩

/-- Invariant of the strict-improvement argmax fold: the result is the first
index achieving the running maximum. -/
theorem argmax_fold_spec (c : Nat → Nat) (n : Nat) :
    ((((List.range n).foldl (fun st i => if c i > st.2 then (i, c i) else st) (0, 0)).1 = 0
        ∧ ((List.range n).foldl (fun st i => if c i > st.2 then (i, c i) else st) (0, 0)).2 = 0)
      ∨ (((List.range n).foldl (fun st i => if c i > st.2 then (i, c i) else st) (0, 0)).1 < n
        ∧ c ((List.range n).foldl (fun st i => if c i > st.2 then (i, c i) else st) (0, 0)).1
          = ((List.range n).foldl (fun st i => if c i > st.2 then (i, c i) else st) (0, 0)).2))
    ∧ (∀ j, j < n →
        c j ≤ ((List.range n).foldl (fun st i => if c i > st.2 then (i, c i) else st) (0, 0)).2)
    ∧ ∀ j, j < ((List.range n).foldl (fun st i => if c i > st.2 then (i, c i) else st) (0, 0)).1 →
        c j < ((List.range n).foldl (fun st i => if c i > st.2 then (i, c i) else st) (0, 0)).2 := by
  induction n with
  | zero => simp
  | succ m ih =>
    obtain ⟨ih1, ih2, ih3⟩ := ih
    rw [List.range_succ, List.foldl_append]
    set r := (List.range m).foldl (fun st i => if c i > st.2 then (i, c i) else st) (0, 0) with hr
    simp only [List.foldl_cons, List.foldl_nil]
    by_cases hcm : c m > r.2
    · rw [if_pos hcm]
      refine ⟨Or.inr ⟨Nat.lt_succ_self m, rfl⟩, ?_, ?_⟩
      · intro j hj
        rcases Nat.lt_succ_iff_lt_or_eq.mp hj with hj' | hj'
        · exact le_of_lt (lt_of_le_of_lt (ih2 j hj') hcm)
        · simp [hj']
      · intro j hj
        exact lt_of_le_of_lt (ih2 j hj) hcm
    · rw [if_neg hcm]
      push_neg at hcm
      refine ⟨?_, ?_, ih3⟩
      · rcases ih1 with ⟨h1, h2⟩ | ⟨h1, h2⟩
        · exact Or.inl ⟨h1, h2⟩
        · exact Or.inr ⟨Nat.lt_succ_of_lt h1, h2⟩
      · intro j hj
        rcases Nat.lt_succ_iff_lt_or_eq.mp hj with hj' | hj'
        · exact ih2 j hj'
        · simpa [hj'] using hcm

/-- **C4.** For every grid with at least one row, `headerRowIndex` lies in
`[0, min(10, rowCount))` and is the first index in that window whose
non-empty-cell count equals the window maximum: no earlier index reaches
its count, and no index in the window exceeds it. -/
theorem c4_headerRowIndex_first_argmax (rawRows : List (List Cell)) (h : rawRows ≠ []) :
    headerRowIndex rawRows < min 10 rawRows.length
    ∧ (∀ j, j < min 10 rawRows.length →
        nonEmptyCount (rawRows.getD j [])
          ≤ nonEmptyCount (rawRows.getD (headerRowIndex rawRows) []))
    ∧ ∀ j, j < headerRowIndex rawRows →
        nonEmptyCount (rawRows.getD j [])
          < nonEmptyCount (rawRows.getD (headerRowIndex rawRows) []) := by
  have hpos : 0 < min 10 rawRows.length := by
    have : 0 < rawRows.length := List.length_pos.mpr h
    omega
  have hstep : headerScanStep rawRows
      = fun st i => if nonEmptyCount (rawRows.getD i []) > st.2
          then (i, nonEmptyCount (rawRows.getD i [])) else st := rfl
  obtain ⟨h1, h2, h3⟩ :=
    argmax_fold_spec (fun i => nonEmptyCount (rawRows.getD i [])) (min 10 rawRows.length)
  rw [headerRowIndex, hstep]
  rcases h1 with ⟨ha, hb⟩ | ⟨ha, hb⟩
  · -- every count in the window is zero; index 0 is the first maximum
    refine ⟨by rw [ha]; exact hpos, ?_, ?_⟩
    · intro j hj
      have h20 := h2 0 hpos
      have h2j := h2 j hj
      rw [ha]
      omega
    · intro j hj
      rw [ha] at hj
      exact absurd hj (Nat.not_lt_zero j)
  · exact ⟨ha, fun j hj => by rw [hb]; exact h2 j hj,
      fun j hj => by rw [hb]; exact h3 j hj⟩

/-- Witness for C4 at a concrete two-row grid. -/
theorem c4_witness :
    ([[Cell.str "Title"], [Cell.str "A", Cell.str "B"]] : List (List Cell)) ≠ []
    ∧ headerRowIndex [[Cell.str "Title"], [Cell.str "A", Cell.str "B"]]
        < min 10 ([[Cell.str "Title"], [Cell.str "A", Cell.str "B"]] : List (List Cell)).length :=
  ⟨by decide, (c4_headerRowIndex_first_argmax _ (by decide)).1⟩

/-- **C10.** Only raw column indices smaller than the header row's length can
become active: the candidate indices are exactly `0 ≤ i <
headers.length`, and `headers` has the header row's length.  Samples and
materialized rows (`columnsOf`, `rowsOf`) read cells only at active indices,
so a cell at or beyond the header row's length is never emitted. -/
theorem c10_active_columns_bounded (rawRows : List (List Cell)) (i : Nat)
    (h : i ∈ activeColIndices rawRows) :
    i < (headerRowOf rawRows).length := by
  have hmem : i ∈ List.range (buildHeaders (headerRowOf rawRows)).length :=
    List.mem_of_mem_filter h
  have := List.mem_range.mp hmem
  simpa [List.length_mapIdx, buildHeaders] using this

/-- Witness for C10 at a concrete grid and index. -/
theorem c10_witness :
    0 ∈ activeColIndices [[Cell.str "A"], [Cell.str "1"]]
    ∧ 0 < (headerRowOf [[Cell.str "A"], [Cell.str "1"]]).length :=
  ⟨by decide, c10_active_columns_bounded _ 0 (by decide)⟩

/-- **C8 counterexample.** `parseFile` performs no deduplication of header
names: a sheet whose header row repeats a label yields duplicate column
names in the ParsedTable. -/
theorem c8_counterexample_duplicate_names :
    parsedColumnNames [[Cell.str "A", Cell.str "A"], [Cell.str "1", Cell.str "2"]]
      = ["A", "A"]
    ∧ ¬ (["A", "A"] : List String).Nodup := by
  exact ⟨rfl, by decide⟩

/-- **C8 (amended).** Column names of the ParsedTable are pairwise distinct
whenever the header-derived names (trimmed header cells with
`Column_<i+1>` placeholders) are pairwise distinct; `parseFile` itself
never deduplicates, so duplicate header labels produce duplicate column
names. -/
theorem c8_unique_names_of_nodup_headers (rawRows : List (List Cell))
    (h : (buildHeaders (headerRowOf rawRows)).Nodup) :
    (parsedColumnNames rawRows).Nodup := by
  unfold parsedColumnNames
  have hnodup : (activeColIndices rawRows).Nodup :=
    (List.nodup_range _).filter _
  refine List.Nodup.map_on ?_ hnodup
  intro i hi j hj hij
  have hi' : i < (buildHeaders (headerRowOf rawRows)).length :=
    List.mem_range.mp (List.mem_of_mem_filter hi)
  have hj' : j < (buildHeaders (headerRowOf rawRows)).length :=
    List.mem_range.mp (List.mem_of_mem_filter hj)
  rw [List.getD_eq_getElem _ _ hi', List.getD_eq_getElem _ _ hj'] at hij
  have := (List.Nodup.get_inj_iff h (i := ⟨i, hi'⟩) (j := ⟨j, hj'⟩)).mp (by
    simpa [List.get_eq_getElem] using hij)
  exact congrArg Fin.val this

/-- Witness for the amended C8 at a grid with distinct headers. -/
theorem c8_witness :
    (buildHeaders (headerRowOf [[Cell.str "A", Cell.str "B"], [Cell.str "1", Cell.str "2"]])).Nodup
    ∧ (parsedColumnNames [[Cell.str "A", Cell.str "B"], [Cell.str "1", Cell.str "2"]]).Nodup :=
  ⟨by decide, c8_unique_names_of_nodup_headers _ (by decide)⟩

/-- **C9 counterexample.** JS truthiness: a requested sheet name that is the
empty string falls back to the first sheet even when a sheet with that name
exists, so "selects the requested sheet when its name is among sheetNames"
fails at `sheetNames = ["A", ""]`, requested `""`. -/
theorem c9_counterexample_empty_name :
    selectSheet ["A", ""] (some "") = Except.ok "A"
    ∧ ("" ∈ (["A", ""] : List String))
    ∧ ("A" : String) ≠ "" := by
  exact ⟨rfl, by decide, by decide⟩

/-- **C9 (amended).** For every workbook with at least one sheet: a
requested name that is non-empty and among `sheetNames` is selected; a
`null`/absent request, an empty-string request, or an unknown requested
name selects the first sheet — in every case without an error. -/
theorem c9_sheet_selection (sheetNames : List String) (s : String)
    (h : sheetNames ≠ []) :
    (s ≠ "" → sheetNames.contains s = true →
      selectSheet sheetNames (some s) = Except.ok s)
    ∧ (s = "" ∨ sheetNames.contains s = false →
      selectSheet sheetNames (some s) = Except.ok (sheetNames.headD ""))
    ∧ selectSheet sheetNames none = Except.ok (sheetNames.headD "") := by
  have hne : sheetNames.isEmpty = false := by
    simpa [List.isEmpty_iff] using h
  refine ⟨?_, ?_, by
    unfold selectSheet targetSheet
    rw [hne, if_neg Bool.false_ne_true]⟩
  · intro hs hc
    have hcond : ((s != "") && sheetNames.contains s) = true := by
      rw [hc, Bool.and_true]
      simpa using hs
    unfold selectSheet targetSheet
    dsimp only
    rw [hne, if_neg Bool.false_ne_true, hcond, if_pos rfl]
  · intro hcase
    have hcond : ((s != "") && sheetNames.contains s) = false := by
      rcases hcase with hs | hc
      · rw [hs, show (("" != "") : Bool) = false from rfl, Bool.false_and]
      · rw [hc, Bool.and_false]
    unfold selectSheet targetSheet
    dsimp only
    rw [hne, if_neg Bool.false_ne_true, hcond, if_neg Bool.false_ne_true]

/-- Witness for the amended C9 at a concrete workbook. -/
theorem c9_witness :
    (["A", "B"] : List String) ≠ []
    ∧ selectSheet ["A", "B"] (some "B") = Except.ok "B" :=
  ⟨by decide, (c9_sheet_selection ["A", "B"] "B" (by decide)).1 (by decide) (by decide)⟩

end SpendGuardian
